import Mathlib

/-!
Shallow embedding of `src/main.py` of the telegram-referral-bot repository.

The file under study is pure process-lifecycle glue: a lock file guarding
against a second instance (`ensure_single_instance`), database pool
initialization/teardown (`init_db_pool` / `close_db_pool`, opaque external
collaborators), a webhook reset (`reset_webhook`), a signal handler
(`handle_shutdown`) installed for SIGINT and SIGTERM, an `atexit` hook that
closes the pool, and an infinite retry loop around `bot.infinity_polling`
(`start_polling_with_retry`).

The embedding records every observable action of a run as an event trace.
External collaborator calls (`init_db_pool`, `bot.remove_webhook`,
`close_db_pool`, `os.remove`, `bot.infinity_polling`) are opaque; whether a
given call raises an exception is supplied by oracle booleans (for the
poll call, a function of the call index, since the loop calls it repeatedly).
The infinite poll loop is modelled with explicit fuel: `fuel` iterations of
the `while True` body are unrolled; the loop itself has no exit.
-/

namespace TelegramReferralBot

/-- Lock-file path, `LOCK_FILE = "/tmp/bot.lock"` at line 19 of src/main.py. -/
def LOCK_FILE : String := "/tmp/bot.lock"

/-- Observable events of a run of src/main.py.  `printMsg` is a `print` call
(f-string interpolations dropped, constant texts kept), `logError` is the
`logging.error` call in the poll loop, `callInit` / `callClose` /
`callRemoveWebhook` / `callPoll` are the calls to the external collaborators
`init_db_pool` / `close_db_pool` / `bot.remove_webhook` /
`bot.infinity_polling`, `createLock` is the `open(LOCK_FILE, "w")` write,
`removeLock` is the `os.remove(LOCK_FILE)` call, and `sleep n` is
`time.sleep(n)`. -/
inductive Ev where
  | printMsg (s : String)
  | logError
  | callInit
  | callClose
  | callRemoveWebhook
  | callPoll
  | createLock
  | removeLock
  | sleep (seconds : Nat)
  deriving DecidableEq, Repr

/-- How a modelled Python function hands control back: `exit c` is
`sys.exit(c)` (a `SystemExit` carrying status `c` propagates; note that
`except Exception` does not catch `SystemExit`), `exn` is an ordinary
exception propagating out. -/
inductive Outcome where
  | exit (code : Nat)
  | exn
  deriving DecidableEq, Repr

/-- Result of one run of `handle_shutdown`: the events it performed, the
lock-file existence afterwards, and how it handed control back. -/
structure HandlerRun where
  trace : List Ev
  lockExists : Bool
  outcome : Outcome
  deriving DecidableEq, Repr

/-- Embeds `handle_shutdown` (src/main.py lines 26-34).  The body is, in
order: `print(...)`; `close_db_pool()`; `if os.path.exists(LOCK_FILE):
os.remove(LOCK_FILE)`; `sys.exit(0)`.  None of the steps is wrapped in its
own `try`, so an exception from `close_db_pool` (oracle `closeRaises`)
propagates before the existence check runs, and an exception from
`os.remove` (oracle `removeRaises`) propagates before `sys.exit(0)` runs.
`lockExists` is whether the lock file exists when the handler starts. -/
def handle_shutdown (closeRaises removeRaises : Bool) (lockExists : Bool) :
    HandlerRun :=
  let t := [Ev.printMsg "Received signal. Shutting down gracefully...",
            Ev.callClose]
  if closeRaises then
    { trace := t, lockExists := lockExists, outcome := Outcome.exn }
  else if lockExists then
    if removeRaises then
      { trace := t ++ [Ev.removeLock], lockExists := true,
        outcome := Outcome.exn }
    else
      { trace := t ++ [Ev.removeLock], lockExists := false,
        outcome := Outcome.exit 0 }
  else
    { trace := t, lockExists := false, outcome := Outcome.exit 0 }

/-- Embeds `ensure_single_instance` (src/main.py lines 37-45): given the
lock-file existence at entry, returns the events performed, the lock-file
existence afterwards, and `some code` when the function ran
`sys.exit(code)` (else `none`: it returned normally). -/
def ensure_single_instance (lockExists : Bool) :
    List Ev × Bool × Option Nat :=
  if lockExists then
    ([Ev.printMsg "Another instance of the bot is already running. Exiting..."],
     lockExists, some 1)
  else
    ([Ev.createLock], true, none)

/-- Embeds `reset_webhook` (src/main.py lines 48-57): it prints, calls
`bot.remove_webhook()` inside a `try`, and prints success or failure; in
either case it returns normally — an exception from the collaborator
(oracle `webhookRaises`) is caught by the `except Exception` clause. -/
def reset_webhook (webhookRaises : Bool) : List Ev :=
  [Ev.printMsg "Resetting Telegram webhook (if any)...",
   Ev.callRemoveWebhook] ++
  (if webhookRaises then [Ev.printMsg "Failed to reset webhook"]
   else [Ev.printMsg "Webhook reset successfully."])

/-- Trace of one iteration of the `while True` body of
`start_polling_with_retry` in which `bot.infinity_polling` returns
normally: `print("Starting the bot...")` then the poll call. -/
def pollOkBlock : List Ev :=
  [Ev.printMsg "Starting the bot...", Ev.callPoll]

/-- Trace of one iteration in which `bot.infinity_polling` raises: the
`except Exception` clause runs `logging.error(...)`,
`print("Retrying polling in 5 seconds...")` and `time.sleep(5)`. -/
def pollFailBlock : List Ev :=
  pollOkBlock ++
    [Ev.logError, Ev.printMsg "Retrying polling in 5 seconds...",
     Ev.sleep 5]

/-- Embeds `start_polling_with_retry` (src/main.py lines 60-73).  The
`while True` loop is unrolled `fuel` times starting at poll-call index `k`;
`pollRaises i` says whether the `i`-th `bot.infinity_polling` call raises.
The loop body has no `break` or `return`, so the function never produces an
exit: it only runs out of fuel. -/
def start_polling_with_retry (pollRaises : Nat → Bool) :
    Nat → Nat → List Ev
  | 0, _ => []
  | fuel + 1, k =>
      (if pollRaises k then pollFailBlock else pollOkBlock) ++
        start_polling_with_retry pollRaises fuel (k + 1)

/-- Oracle for a whole run: lock-file existence at launch and which
collaborator calls raise. -/
structure Oracle where
  lockInit : Bool
  initRaises : Bool
  webhookRaises : Bool
  pollRaises : Nat → Bool

/-- Result of a run of the program without signal delivery: the event
trace, the lock-file existence at the end, whether
`atexit.register(close_db_pool)` had been executed, whether the
SIGINT/SIGTERM handlers had been installed, and `some c` when the process
exited with status `c` (else `none`: still inside the poll loop when the
fuel ran out). -/
structure ProgRun where
  trace : List Ev
  lockExists : Bool
  atexitRegistered : Bool
  handlersInstalled : Bool
  exit : Option Nat
  deriving DecidableEq, Repr

/-- Embeds `main` (src/main.py lines 76-99) in a run where no signal is
delivered.  In order: `print`; `init_db_pool()` inside `try` — if it raises
(oracle `initRaises`) the `except` clause prints and runs `sys.exit(1)`,
before `atexit.register(close_db_pool)` and before the signal handlers are
installed, so no `close_db_pool` call ever happens on that path; otherwise
`reset_webhook()`, `atexit.register(close_db_pool)`, installation of the
SIGINT and SIGTERM handlers (lines 95-96 install `handle_shutdown` for
both), and `start_polling_with_retry()`.  `lockExists` is the lock-file
existence when `main` starts; nothing in `main` touches the lock file. -/
def main (o : Oracle) (fuel : Nat) (lockExists : Bool) : ProgRun :=
  let t := [Ev.printMsg "Connecting to database...", Ev.callInit]
  if o.initRaises then
    { trace := t ++ [Ev.printMsg "Failed to initialize database pool"],
      lockExists := lockExists, atexitRegistered := false,
      handlersInstalled := false, exit := some 1 }
  else
    { trace := t ++ [Ev.printMsg "Database connection pool initialized."] ++
        reset_webhook o.webhookRaises ++
        start_polling_with_retry o.pollRaises fuel 0,
      lockExists := lockExists, atexitRegistered := true,
      handlersInstalled := true, exit := none }

/-- Embeds the `__main__` block (src/main.py lines 102-104) in a run where
no signal is delivered: `ensure_single_instance()` then `main()`.  When
`ensure_single_instance` runs `sys.exit(1)`, `main` never starts and — the
`atexit` hook not being registered yet — no cleanup of any kind runs. -/
def runNoSignal (o : Oracle) (fuel : Nat) : ProgRun :=
  match ensure_single_instance o.lockInit with
  | (t, lock, some code) =>
      { trace := t, lockExists := lock, atexitRegistered := false,
        handlersInstalled := false, exit := some code }
  | (t, lock, none) =>
      let r := main o fuel lock
      { r with trace := t ++ r.trace }

/-- Result of a run that receives a termination signal: the events up to
signal delivery, the run of the installed handler, the number of
`close_db_pool` calls made by the `atexit` machinery at interpreter exit,
the lock-file existence at the end, and the process exit status (`none`
when the process did not exit). -/
structure SigRun where
  preTrace : List Ev
  handler : Option HandlerRun
  atexitCloseCalls : Nat
  lockExists : Bool
  exit : Option Nat
  deriving DecidableEq, Repr

/-- Embeds a run of src/main.py in which startup completes (lock file
absent at launch, `init_db_pool` succeeds) and SIGINT or SIGTERM arrives
while the process is blocked inside its `(pollsBeforeSignal + 1)`-th
`bot.infinity_polling` call.  The installed `handle_shutdown` runs; the
lock file exists at that point, having been created at launch and removed
by nothing since.  If the handler reaches `sys.exit(0)`, the `SystemExit`
propagates through the poll loop — `except Exception` at line 70 does not
catch `SystemExit` — so the interpreter exits with status 0, first running
the registered `atexit` hook, which calls `close_db_pool` once more.  If
the handler instead raises an ordinary exception, that exception surfaces
at the interrupted poll call inside the `try`, is caught by
`except Exception`, and the loop continues: the process does not exit and
no `atexit` hook runs. -/
def runWithSignal (webhookRaises : Bool) (pollRaises : Nat → Bool)
    (closeRaises removeRaises : Bool) (pollsBeforeSignal : Nat) : SigRun :=
  let pre :=
    Ev.createLock ::
      ([Ev.printMsg "Connecting to database...", Ev.callInit,
        Ev.printMsg "Database connection pool initialized."] ++
       reset_webhook webhookRaises ++
       start_polling_with_retry pollRaises pollsBeforeSignal 0 ++
       [Ev.printMsg "Starting the bot...", Ev.callPoll])
  let h := handle_shutdown closeRaises removeRaises true
  match h.outcome with
  | Outcome.exit c =>
      { preTrace := pre, handler := some h, atexitCloseCalls := 1,
        lockExists := h.lockExists, exit := some c }
  | Outcome.exn =>
      { preTrace := pre, handler := some h, atexitCloseCalls := 0,
        lockExists := h.lockExists, exit := none }

/-- Oracle of a run in which the lock file is absent at launch and
`init_db_pool` raises: startup is fatal at pool initialization. -/
def oInitFail : Oracle :=
  { lockInit := false, initRaises := true, webhookRaises := false,
    pollRaises := fun _ => false }

/-- Oracle of a run whose launch finds the lock file already present: the
conflict path of `ensure_single_instance`. -/
def oConflict : Oracle :=
  { lockInit := true, initRaises := false, webhookRaises := false,
    pollRaises := fun _ => false }

/-- Oracle of a run in which startup succeeds except that
`bot.remove_webhook` raises. -/
def oWebhookFail : Oracle :=
  { lockInit := false, initRaises := false, webhookRaises := true,
    pollRaises := fun _ => false }

/-- Unfolded form of a no-signal run on the lock-conflict path: the process
prints the conflict message and exits with status 1, having touched
nothing — the pre-existing lock file stays, no collaborator is called, no
hook registered. -/
lemma runNoSignal_conflict (o : Oracle) (fuel : Nat)
    (h : o.lockInit = true) :
    runNoSignal o fuel =
      { trace := [Ev.printMsg
            "Another instance of the bot is already running. Exiting..."],
        lockExists := true, atexitRegistered := false,
        handlersInstalled := false, exit := some 1 } := by
  unfold runNoSignal ensure_single_instance
  simp [h]

/-- Unfolded form of a no-signal run on the pool-init-failure path: the
lock file is created, `init_db_pool` is called and raises, the process
prints the failure and exits with status 1 before registering the `atexit`
hook or the signal handlers. -/
lemma runNoSignal_initFail (o : Oracle) (fuel : Nat)
    (h1 : o.lockInit = false) (h2 : o.initRaises = true) :
    runNoSignal o fuel =
      { trace := [Ev.createLock, Ev.printMsg "Connecting to database...",
                  Ev.callInit,
                  Ev.printMsg "Failed to initialize database pool"],
        lockExists := true, atexitRegistered := false,
        handlersInstalled := false, exit := some 1 } := by
  unfold runNoSignal ensure_single_instance main
  simp [h1, h2]

/-- Unfolded form of a no-signal run on the successful-startup path: lock
created, pool initialized, webhook reset, hooks registered, and `fuel`
iterations of the poll loop; no exit. -/
lemma runNoSignal_ok (o : Oracle) (fuel : Nat)
    (h1 : o.lockInit = false) (h2 : o.initRaises = false) :
    runNoSignal o fuel =
      { trace := Ev.createLock ::
          ([Ev.printMsg "Connecting to database...", Ev.callInit,
            Ev.printMsg "Database connection pool initialized."] ++
           reset_webhook o.webhookRaises ++
           start_polling_with_retry o.pollRaises fuel 0),
        lockExists := true, atexitRegistered := true,
        handlersInstalled := true, exit := none } := by
  unfold runNoSignal ensure_single_instance main
  simp [h1, h2]

/-- C1, counterexample.  The claim says the lock marker is absent after
every exit path; here is a terminating execution (lock absent at launch,
`init_db_pool` raises) that exits with status 1, leaves the lock file
present, and during which neither `close_db_pool` nor `os.remove` was ever
called — no cleanup trigger fired. -/
theorem cleanup_misses_init_failure_exit :
    (runNoSignal oInitFail 0).exit = some 1 ∧
      (runNoSignal oInitFail 0).lockExists = true ∧
      (runNoSignal oInitFail 0).trace.count Ev.callClose = 0 ∧
      (runNoSignal oInitFail 0).trace.count Ev.removeLock = 0 := by
  refine ⟨rfl, rfl, ?_, ?_⟩ <;> rfl

/-- C1, amended.  Cleanup is not triply redundant: the `atexit` hook covers
only the pool and there is no finally-style block, so the lock marker is
removed only by the signal handler.  Concretely: every terminating
execution without a signal leaves the lock file present, while a
signal-triggered shutdown whose cleanup calls succeed removes it and exits
with status 0. -/
theorem lock_removed_only_by_signal_handler :
    (∀ (o : Oracle) (fuel c : Nat),
        (runNoSignal o fuel).exit = some c →
          (runNoSignal o fuel).lockExists = true) ∧
    (∀ (w : Bool) (p : Nat → Bool) (n : Nat),
        (runWithSignal w p false false n).lockExists = false ∧
          (runWithSignal w p false false n).exit = some 0) := by
  constructor
  · intro o fuel c h
    unfold runNoSignal ensure_single_instance main at *
    cases hl : o.lockInit <;> cases hi : o.initRaises <;>
      simp [hl, hi] at h ⊢
  · intro w p n
    exact ⟨rfl, rfl⟩

/-- C1, witness for the amended theorem: the hypothesis of its first part
is satisfiable — the `oInitFail` run terminates (status 1) and indeed
leaves the lock file present. -/
theorem lock_removed_only_by_signal_handler_witness :
    (runNoSignal oInitFail 0).exit = some 1 ∧
      (runNoSignal oInitFail 0).lockExists = true :=
  ⟨rfl, lock_removed_only_by_signal_handler.1 oInitFail 0 1 rfl⟩

/-- C2, counterexample.  The claim says a failure closing the pool does
not prevent removal of the lock marker.  In the code the `close_db_pool()`
call is not individually protected: when it raises (with the lock file
present), the handler stops there — the trace ends at `callClose`, no
`removeLock` happens, and the lock file is still present. -/
theorem close_failure_blocks_lock_removal :
    handle_shutdown true false true =
      { trace := [Ev.printMsg "Received signal. Shutting down gracefully...",
                  Ev.callClose],
        lockExists := true, outcome := Outcome.exn } := by
  rfl

/-- C2, amended.  The shutdown steps are sequential and individually
unprotected: a failure closing the pool aborts the handler before the
lock-file check, leaving the lock file exactly as it was and never
attempting removal; in the other direction the claim holds vacuously —
the pool-close call precedes removal, so every handler run calls
`close_db_pool` exactly once whether or not `os.remove` fails. -/
theorem shutdown_steps_sequential_unprotected
    (closeRaises removeRaises lockExists : Bool) :
    (closeRaises = true →
        (handle_shutdown closeRaises removeRaises lockExists).lockExists =
            lockExists ∧
          Ev.removeLock ∉
            (handle_shutdown closeRaises removeRaises lockExists).trace) ∧
      (handle_shutdown closeRaises removeRaises lockExists).trace.count
          Ev.callClose = 1 := by
  cases closeRaises <;> cases removeRaises <;> cases lockExists <;> decide

/-- C2, witness for the amended theorem at a concrete input: with the pool
close raising and the lock file present, the lock file stays and removal is
never attempted. -/
theorem shutdown_steps_sequential_unprotected_witness :
    (true : Bool) = true ∧
      ((handle_shutdown true false true).lockExists = true ∧
        Ev.removeLock ∉ (handle_shutdown true false true).trace) :=
  ⟨rfl, (shutdown_steps_sequential_unprotected true false true).1 rfl⟩

/-- C3.  In every run where a termination signal arrives after startup
completed and the cleanup collaborator calls succeed, the lock file is
absent afterwards, the process exits with status 0, and `close_db_pool`
is invoked exactly once per shutdown trigger path: once by the signal
handler and once by the registered `atexit` hook at interpreter exit. -/
theorem signal_shutdown_close_once_per_path (w : Bool) (p : Nat → Bool)
    (n : Nat) :
    (runWithSignal w p false false n).lockExists = false ∧
      ((runWithSignal w p false false n).handler.map
          fun h => h.trace.count Ev.callClose) = some 1 ∧
      (runWithSignal w p false false n).atexitCloseCalls = 1 ∧
      (runWithSignal w p false false n).exit = some 0 := by
  exact ⟨rfl, rfl, rfl, rfl⟩

/-- C4.  On receipt of SIGINT or SIGTERM after startup (lines 95-96
install `handle_shutdown` for both), the handler logs the signal, calls
`close_db_pool`, removes the lock file, and runs `sys.exit(0)`, in that
order, and the process terminates with exit status 0. -/
theorem signal_shutdown_order (w : Bool) (p : Nat → Bool) (n : Nat) :
    (runWithSignal w p false false n).handler =
        some { trace := [Ev.printMsg
                           "Received signal. Shutting down gracefully...",
                         Ev.callClose, Ev.removeLock],
               lockExists := false, outcome := Outcome.exit 0 } ∧
      (runWithSignal w p false false n).exit = some 0 := by
  exact ⟨rfl, rfl⟩

/-- C5.  If the lock marker exists at launch, the process exits with
status 1 leaving everything untouched (the trace holds only the conflict
message: no lock write, no removal, no collaborator call); if it is
absent, the marker is created (the trace starts with `createLock`),
startup proceeds into `main` (the `init_db_pool` call happens), and the
marker is in place. -/
theorem startup_lock_check (o : Oracle) (fuel : Nat) :
    (o.lockInit = true →
        runNoSignal o fuel =
          { trace := [Ev.printMsg
                "Another instance of the bot is already running. Exiting..."],
            lockExists := true, atexitRegistered := false,
            handlersInstalled := false, exit := some 1 }) ∧
      (o.lockInit = false →
        (runNoSignal o fuel).trace.head? = some Ev.createLock ∧
          Ev.callInit ∈ (runNoSignal o fuel).trace ∧
          (runNoSignal o fuel).lockExists = true) := by
  refine ⟨runNoSignal_conflict o fuel, ?_⟩
  intro h1
  cases h2 : o.initRaises
  · rw [runNoSignal_ok o fuel h1 h2]
    simp
  · rw [runNoSignal_initFail o fuel h1 h2]
    simp

/-- C5, witness at concrete oracles: the conflict half at `oConflict`, the
lock-absent half at `oInitFail`. -/
theorem startup_lock_check_witness :
    runNoSignal oConflict 0 =
        { trace := [Ev.printMsg
              "Another instance of the bot is already running. Exiting..."],
          lockExists := true, atexitRegistered := false,
          handlersInstalled := false, exit := some 1 } ∧
      ((runNoSignal oInitFail 0).trace.head? = some Ev.createLock ∧
        Ev.callInit ∈ (runNoSignal oInitFail 0).trace ∧
        (runNoSignal oInitFail 0).lockExists = true) :=
  ⟨(startup_lock_check oConflict 0).1 rfl,
   (startup_lock_check oInitFail 0).2 rfl⟩

/-- C7.  When `init_db_pool` raises, the process exits with status 1
immediately: the whole run is lock creation, the connecting message, the
single failing `init_db_pool` call and the failure message — in particular
`bot.infinity_polling` is never invoked and `init_db_pool` is not
retried. -/
theorem init_failure_fatal (o : Oracle) (fuel : Nat)
    (h1 : o.lockInit = false) (h2 : o.initRaises = true) :
    runNoSignal o fuel =
        { trace := [Ev.createLock, Ev.printMsg "Connecting to database...",
                    Ev.callInit,
                    Ev.printMsg "Failed to initialize database pool"],
          lockExists := true, atexitRegistered := false,
          handlersInstalled := false, exit := some 1 } ∧
      (runNoSignal o fuel).trace.count Ev.callPoll = 0 ∧
      (runNoSignal o fuel).trace.count Ev.callInit = 1 := by
  have e := runNoSignal_initFail o fuel h1 h2
  refine ⟨e, ?_, ?_⟩ <;> rw [e] <;> rfl

/-- C7, witness at the concrete oracle `oInitFail`. -/
theorem init_failure_fatal_witness :
    runNoSignal oInitFail 0 =
        { trace := [Ev.createLock, Ev.printMsg "Connecting to database...",
                    Ev.callInit,
                    Ev.printMsg "Failed to initialize database pool"],
          lockExists := true, atexitRegistered := false,
          handlersInstalled := false, exit := some 1 } ∧
      (runNoSignal oInitFail 0).trace.count Ev.callPoll = 0 ∧
      (runNoSignal oInitFail 0).trace.count Ev.callInit = 1 :=
  init_failure_fatal oInitFail 0 rfl rfl

/-- C8.  When `bot.remove_webhook` raises, the exception is caught inside
`reset_webhook` and logged (the failure message appears in the trace), and
startup continues: the pool-init call has happened, the `atexit` hook is
registered, the poll loop starts (`bot.infinity_polling` is invoked), and
the process does not exit. -/
theorem webhook_failure_nonfatal (o : Oracle) (fuel : Nat)
    (h1 : o.lockInit = false) (h2 : o.initRaises = false)
    (h3 : o.webhookRaises = true) :
    Ev.printMsg "Failed to reset webhook" ∈
        (runNoSignal o (fuel + 1)).trace ∧
      Ev.callInit ∈ (runNoSignal o (fuel + 1)).trace ∧
      Ev.callPoll ∈ (runNoSignal o (fuel + 1)).trace ∧
      (runNoSignal o (fuel + 1)).atexitRegistered = true ∧
      (runNoSignal o (fuel + 1)).exit = none := by
  rw [runNoSignal_ok o (fuel + 1) h1 h2]
  have hp : Ev.callPoll ∈
      start_polling_with_retry o.pollRaises (fuel + 1) 0 := by
    cases h : o.pollRaises 0 <;>
      simp [start_polling_with_retry, h, pollFailBlock, pollOkBlock]
  simp [reset_webhook, h3, hp]

/-- C8, witness at the concrete oracle `oWebhookFail`. -/
theorem webhook_failure_nonfatal_witness :
    Ev.printMsg "Failed to reset webhook" ∈
        (runNoSignal oWebhookFail 1).trace ∧
      Ev.callInit ∈ (runNoSignal oWebhookFail 1).trace ∧
      Ev.callPoll ∈ (runNoSignal oWebhookFail 1).trace ∧
      (runNoSignal oWebhookFail 1).atexitRegistered = true ∧
      (runNoSignal oWebhookFail 1).exit = none :=
  webhook_failure_nonfatal oWebhookFail 0 rfl rfl rfl

/-- C9.  On the pool-init-failure path the process exits with status 1
before `atexit.register(close_db_pool)` runs and before the signal
handlers are installed, so `close_db_pool` is never invoked and the lock
file created at launch is left on the filesystem; any later launch that
finds that leftover lock file exits with status 1 — the marker blocks
relaunch until removed externally. -/
theorem init_failure_leaves_stale_lock (o : Oracle) (fuel : Nat)
    (h1 : o.lockInit = false) (h2 : o.initRaises = true) :
    (runNoSignal o fuel).exit = some 1 ∧
      (runNoSignal o fuel).atexitRegistered = false ∧
      (runNoSignal o fuel).handlersInstalled = false ∧
      (runNoSignal o fuel).trace.count Ev.callClose = 0 ∧
      (runNoSignal o fuel).lockExists = true ∧
      (∀ (o2 : Oracle) (f2 : Nat),
          o2.lockInit = (runNoSignal o fuel).lockExists →
            (runNoSignal o2 f2).exit = some 1) := by
  have e := runNoSignal_initFail o fuel h1 h2
  refine ⟨by rw [e], by rw [e], by rw [e], by rw [e]; rfl, by rw [e], ?_⟩
  intro o2 f2 h
  rw [e] at h
  rw [runNoSignal_conflict o2 f2 h]

/-- C9, witness at the concrete oracle `oInitFail` (with `oConflict` as
the blocked relaunch). -/
theorem init_failure_leaves_stale_lock_witness :
    (runNoSignal oInitFail 0).exit = some 1 ∧
      (runNoSignal oInitFail 0).lockExists = true ∧
      (runNoSignal oConflict 0).exit = some 1 :=
  ⟨(init_failure_leaves_stale_lock oInitFail 0 rfl rfl).1,
   (init_failure_leaves_stale_lock oInitFail 0 rfl rfl).2.2.2.2.1,
   (init_failure_leaves_stale_lock oInitFail 0 rfl rfl).2.2.2.2.2
     oConflict 0 rfl⟩

/-- Unrolling the poll loop for `a + b` iterations is unrolling it for
`a` iterations and then for `b` more, the call index advanced by `a`. -/
lemma start_polling_with_retry_add (o : Nat → Bool) (a b k : Nat) :
    start_polling_with_retry o (a + b) k =
      start_polling_with_retry o a k ++
        start_polling_with_retry o b (k + a) := by
  induction a generalizing k with
  | zero => simp [start_polling_with_retry]
  | succ n ih =>
      have e1 : n + 1 + b = (n + b) + 1 := by omega
      have e2 : k + 1 + n = k + (n + 1) := by omega
      rw [e1]
      simp only [start_polling_with_retry, ih (k + 1), e2,
        List.append_assoc]

/-- When every poll call in a window raises, each iteration contributes a
failure block. -/
lemma start_polling_with_retry_all_raise (o : Nat → Bool) (m k : Nat)
    (h : ∀ j, j < m → o (k + j) = true) :
    start_polling_with_retry o m k =
      (List.replicate m pollFailBlock).flatten := by
  induction m generalizing k with
  | zero => simp [start_polling_with_retry]
  | succ n ih =>
      have h0 : o k = true := by simpa using h 0 (Nat.succ_pos n)
      have h' : ∀ j, j < n → o (k + 1 + j) = true := by
        intro j hj
        have e : k + 1 + j = k + (j + 1) := by omega
        rw [e]
        exact h (j + 1) (by omega)
      simp [start_polling_with_retry, h0, ih (k + 1) h',
        List.replicate_succ]

/-- When no poll call in a window raises, each iteration contributes a
success block. -/
lemma start_polling_with_retry_all_ok (o : Nat → Bool) (m k : Nat)
    (h : ∀ j, j < m → o (k + j) = false) :
    start_polling_with_retry o m k =
      (List.replicate m pollOkBlock).flatten := by
  induction m generalizing k with
  | zero => simp [start_polling_with_retry]
  | succ n ih =>
      have h0 : o k = false := by simpa using h 0 (Nat.succ_pos n)
      have h' : ∀ j, j < n → o (k + 1 + j) = false := by
        intro j hj
        have e : k + 1 + j = k + (j + 1) := by omega
        rw [e]
        exact h (j + 1) (by omega)
      simp [start_polling_with_retry, h0, ih (k + 1) h',
        List.replicate_succ]

/-- Each failure block holds exactly one `sleep 5`. -/
lemma count_sleep_replicate_fail (n : Nat) :
    ((List.replicate n pollFailBlock).flatten).count (Ev.sleep 5) = n := by
  induction n with
  | zero => rfl
  | succ m ih =>
      rw [List.replicate_succ, List.flatten_cons, List.count_append, ih]
      have hc : pollFailBlock.count (Ev.sleep 5) = 1 := rfl
      rw [hc]
      omega

/-- Success blocks hold no sleep at all. -/
lemma count_sleep_replicate_ok (n : Nat) :
    ((List.replicate n pollOkBlock).flatten).count (Ev.sleep 5) = 0 := by
  induction n with
  | zero => rfl
  | succ m ih =>
      rw [List.replicate_succ, List.flatten_cons, List.count_append, ih]
      rfl

/-- Every iteration of the poll loop performs exactly one
`bot.infinity_polling` call, whatever the outcomes: the loop body has no
exit, so polling attempts continue for as long as the process lives. -/
lemma start_polling_with_retry_count_poll (o : Nat → Bool) (fuel k : Nat) :
    (start_polling_with_retry o fuel k).count Ev.callPoll = fuel := by
  induction fuel generalizing k with
  | zero => rfl
  | succ n ih =>
      simp only [start_polling_with_retry, List.count_append, ih (k + 1)]
      cases h : o k
      · simp only [h, Bool.false_eq_true, if_false]
        have hc : pollOkBlock.count Ev.callPoll = 1 := rfl
        rw [hc]
        omega
      · simp only [h, if_true]
        have hc : pollFailBlock.count Ev.callPoll = 1 := rfl
        rw [hc]
        omega

/-- The number of `sleep 5` events over a window of the poll loop equals
the number of raising poll calls in that window. -/
lemma start_polling_with_retry_count_sleep (o : Nat → Bool)
    (fuel k : Nat) :
    (start_polling_with_retry o fuel k).count (Ev.sleep 5) =
      (List.range fuel).countP (fun j => o (k + j)) := by
  induction fuel generalizing k with
  | zero => rfl
  | succ n ih =>
      rw [List.range_succ_eq_map]
      rw [List.countP_cons, List.countP_map]
      have hcong :
          List.countP ((fun j => o (k + j)) ∘ Nat.succ) (List.range n) =
            List.countP (fun j => o (k + 1 + j)) (List.range n) := by
        apply List.countP_congr
        intro a _
        have e : k + Nat.succ a = k + 1 + a := by omega
        simp only [Function.comp, e]
      rw [hcong, ← ih (k + 1)]
      simp only [start_polling_with_retry, List.count_append, Nat.add_zero]
      rcases Bool.eq_false_or_eq_true (o k) with h | h
      · have hc : pollFailBlock.count (Ev.sleep 5) = 1 := rfl
        rw [if_pos h, if_pos h, hc]
        omega
      · have hc : pollOkBlock.count (Ev.sleep 5) = 0 := rfl
        rw [if_neg (by simp [h]), if_neg (by simp [h]), hc]
        omega

/-- C6.  With a poll call that raises on its first `N` invocations and
succeeds from then on, the loop's trace over `N + 1 + m` iterations is
exactly `N` failure blocks — each ending in the fixed `sleep 5` between
consecutive attempts — then a successful attempt, then `m` further normal
attempts: exactly `N` retries (`N` sleeps in total), normal polling
resumes, and the loop goes on for every `m`, never terminating because of
the raised exceptions. -/
theorem poll_retries_exactly_then_resumes (N m : Nat) :
    start_polling_with_retry (fun i => decide (i < N)) (N + 1 + m) 0 =
        (List.replicate N pollFailBlock).flatten ++ pollOkBlock ++
          (List.replicate m pollOkBlock).flatten ∧
      (start_polling_with_retry (fun i => decide (i < N))
          (N + 1 + m) 0).count (Ev.sleep 5) = N ∧
      (∀ fuel, (start_polling_with_retry (fun i => decide (i < N))
          fuel 0).count Ev.callPoll = fuel) := by
  have htr : start_polling_with_retry (fun i => decide (i < N))
      (N + 1 + m) 0 =
      (List.replicate N pollFailBlock).flatten ++ pollOkBlock ++
        (List.replicate m pollOkBlock).flatten := by
    have e : N + 1 + m = N + (1 + m) := by omega
    rw [e, start_polling_with_retry_add]
    have hA : start_polling_with_retry (fun i => decide (i < N)) N 0 =
        (List.replicate N pollFailBlock).flatten := by
      apply start_polling_with_retry_all_raise
      intro j hj
      simp only [Nat.zero_add, decide_eq_true_eq]
      exact hj
    have hB : start_polling_with_retry (fun i => decide (i < N))
        (1 + m) (0 + N) =
        (List.replicate (1 + m) pollOkBlock).flatten := by
      apply start_polling_with_retry_all_ok
      intro j hj
      simp only [decide_eq_false_iff_not]
      omega
    rw [hA, hB, Nat.add_comm 1 m, List.replicate_succ, List.flatten_cons,
      ← List.append_assoc]
  refine ⟨htr, ?_, fun fuel =>
    start_polling_with_retry_count_poll (fun i => decide (i < N)) fuel 0⟩
  rw [htr]
  simp only [List.count_append, count_sleep_replicate_fail,
    count_sleep_replicate_ok]
  have hc : pollOkBlock.count (Ev.sleep 5) = 0 := rfl
  rw [hc]
  omega

/-- C10.  The backoff sleep runs only after a raising poll call: an
iteration whose poll call returns normally contributes just the
sleep-free success block and the loop immediately re-invokes the poll
call (next iteration, next index) with no intervening delay; every
iteration polls exactly once — the loop never exits on a normal return —
and the total number of `sleep 5` events equals the number of raising
poll calls in the window. -/
theorem poll_sleep_only_after_failure (o : Nat → Bool) (fuel k : Nat) :
    (o k = false →
        start_polling_with_retry o (fuel + 1) k =
          pollOkBlock ++ start_polling_with_retry o fuel (k + 1)) ∧
      pollOkBlock.count (Ev.sleep 5) = 0 ∧
      (start_polling_with_retry o fuel k).count Ev.callPoll = fuel ∧
      (start_polling_with_retry o fuel k).count (Ev.sleep 5) =
        (List.range fuel).countP (fun j => o (k + j)) := by
  refine ⟨?_, rfl, start_polling_with_retry_count_poll o fuel k,
    start_polling_with_retry_count_sleep o fuel k⟩
  intro h
  simp [start_polling_with_retry, h]

/-- C10, witness: with a never-raising oracle, the first iteration is the
sleep-free success block followed by the rest of the loop. -/
theorem poll_sleep_only_after_failure_witness :
    ((fun _ : Nat => false) 0 = false) ∧
      start_polling_with_retry (fun _ : Nat => false) 1 0 =
        pollOkBlock ++ start_polling_with_retry (fun _ : Nat => false) 0 1 :=
  ⟨rfl, (poll_sleep_only_after_failure (fun _ : Nat => false) 0 0).1 rfl⟩

end TelegramReferralBot
